import Mathlib

/-!
Verification of the water-production dashboard (streamlit_app.py).

The program loads a CSV of water-production records, parses the date column
with strptime semantics (coercing failures to null and dropping those rows),
indexes by date,
renames the metric columns to display labels, filters rows by user-selected
country and source sets, aggregates three summary metrics, and renders either
the metrics and chart or a warning when the filtered table is empty, plus an
optional 100-row raw-data preview.

We embed the data pipeline shallowly: a CSV row is a record of parsed cells
(numeric cells are `Option ℚ`, `none` standing for a missing/NaN value), a
date is a year-month-day triple, and the loaded table is a list of records
together with its display column names.
-/

namespace WaterDash

/-- A calendar date as produced by the %Y-%m-%d parse. -/
structure Date where
  year : Nat
  month : Nat
  day : Nat
deriving DecidableEq, Repr

/-- One data row as read from the CSV file, before date parsing: the date cell
is still raw text and numeric cells are `Option ℚ` (`none` models a
missing/NaN cell, as produced by the CSV reader). -/
structure RawRow where
  date : String
  country : String
  source : String
  production_m3 : Option ℚ
  service_hours : Option ℚ
  production_m3_per_hour : Option ℚ
deriving DecidableEq, Repr

/-- One record of the loaded table: the date index is parsed, the three
metric cells keep their `Option ℚ` (NaN-capable) representation.  The fields
`production`, `serviceHours`, `efficiency` model the renamed display columns
"Production (m³)", "Service Hours" and "Efficiency (m³/hour)". -/
structure Record where
  date : Date
  country : String
  source : String
  production : Option ℚ
  serviceHours : Option ℚ
  efficiency : Option ℚ
deriving DecidableEq, Repr

/-- The loaded table: its display column names (the date column has become
the index, so it is no longer among the columns) and its rows in file order. -/
structure DataFrame where
  columns : List String
  rows : List Record
deriving DecidableEq, Repr

/-! ### Date parsing: `pd.to_datetime(x, format=%Y-%m-%d, errors=coerce)`

The loader parses the date column against the dash-separated format
`%Y-%m-%d` and coerces any failure to a null marker.  The format is matched
with strptime semantics: `%Y` is exactly four digits, while `%m` and `%d`
accept one or two digits (the leading zero is optional) with their value
ranges checked, and the date must be a valid calendar date; the whole
string must be consumed.  We embed the format check and calendar
validation directly. -/

/-- Gregorian leap-year test. -/
def isLeapYear (y : Nat) : Bool :=
  (y % 4 == 0 && y % 100 != 0) || y % 400 == 0

/-- Number of days of month `m` in year `y` (months 1..12). -/
def daysInMonth (y m : Nat) : Nat :=
  if m == 2 then (if isLeapYear y then 29 else 28)
  else if m == 4 || m == 6 || m == 9 || m == 11 then 30
  else 31

/-- Split a character list at every dash, keeping empty segments. -/
def splitDashes : List Char → List (List Char)
  | [] => [[]]
  | c :: cs =>
    let r := splitDashes cs
    if c = '-' then [] :: r
    else
      match r with
      | [] => [[c]]
      | h :: t => (c :: h) :: t

/-- Decimal value of a digit list. -/
def digitsToNat (l : List Char) : Nat :=
  l.foldl (fun a c => 10 * a + (c.toNat - 48)) 0

/-- Strptime-style `%Y-%m-%d` parse with coercion: exactly three
dash-separated segments; the year is exactly 4 digits; month and day are 1
or 2 digits each (a leading zero is optional), the month in 1..12 and the
day valid for the month; any other value yields `none` (the null marker),
never an error. -/
def parseDate (s : String) : Option Date :=
  match splitDashes s.data with
  | [ys, ms, ds] =>
    if ys.length = 4 ∧ (ms.length = 1 ∨ ms.length = 2) ∧
       (ds.length = 1 ∨ ds.length = 2) ∧
       ys.all Char.isDigit ∧ ms.all Char.isDigit ∧ ds.all Char.isDigit then
      let y := digitsToNat ys
      let m := digitsToNat ms
      let d := digitsToNat ds
      if 1 ≤ m ∧ m ≤ 12 ∧ 1 ≤ d ∧ d ≤ daysInMonth y m then
        some { year := y, month := m, day := d }
      else none
    else none
  | _ => none

/-! ### Data Loader (`load_data`) -/

/-- The state of the source file as the loader can encounter it: absent,
present but structurally unreadable, or readable with a header row and
data rows. -/
inductive FileState
  | missing
  | unreadable (msg : String)
  | readable (header : List String) (rows : List RawRow)

/-- The two failure kinds the loader signals, mirroring the except arms
around `load_data`: `FileNotFoundError` and any other exception, which
carries the underlying message. -/
inductive LoadError
  | fileNotFound
  | parseError (msg : String)
deriving DecidableEq, Repr

/-- The column rename applied after indexing: metric columns get display
labels, all other columns (country, source) keep their names. -/
def renameColumn (c : String) : String :=
  if c = "production_m3" then "Production (m³)"
  else if c = "service_hours" then "Service Hours"
  else if c = "production_m3_per_hour" then "Efficiency (m³/hour)"
  else c

/-- Build a loaded record from a raw row and its parsed date. -/
def convertRow (r : RawRow) (d : Date) : Record :=
  { date := d, country := r.country, source := r.source,
    production := r.production_m3, serviceHours := r.service_hours,
    efficiency := r.production_m3_per_hour }

/-- Parse one raw row: `none` exactly when its date fails to parse
(the row `dropna` removes). -/
def parseRow (r : RawRow) : Option Record :=
  (parseDate r.date).map (convertRow r)

/-- The row pipeline of `load_data`: parse dates with coercion, then drop
every row whose date is the null marker, preserving file order. -/
def loadRows (rows : List RawRow) : List Record :=
  rows.filterMap parseRow

/-- `load_data`: a missing file raises `FileNotFoundError`; an unreadable
file raises a generic parse exception; reading with `parse_dates` on a
header lacking the date column also raises; otherwise rows with
unparseable dates are dropped, the date column becomes the index, and the
remaining columns are renamed for display. -/
def load : FileState → Except LoadError DataFrame
  | .missing => .error .fileNotFound
  | .unreadable msg => .error (.parseError msg)
  | .readable header rows =>
    if "date" ∈ header then
      .ok { columns := (header.erase "date").map renameColumn,
            rows := loadRows rows }
    else
      .error (.parseError "Missing column provided to parse_dates: date")

/-! ### Memoization (`@st.cache_data`)

`load_data` is decorated with `st.cache_data`: the first successful call
computes and stores the table; later calls return the stored table without
recomputing.  We model the cache as an `Option DataFrame` threaded
explicitly; the `Bool` in the result records whether this call ran the
loader. -/

/-- One access to the memoized loader: returns the result, the new cache
state, and whether the loader body actually ran. -/
def cachedLoad (file : FileState) : Option DataFrame →
    Except LoadError DataFrame × Option DataFrame × Bool
  | some df => (.ok df, some df, false)
  | none =>
    match load file with
    | .ok df => (.ok df, some df, true)
    | .error e => (.error e, none, true)

/-! ### Filter Engine -/

/-- First-seen-order distinct values, as `pandas.unique` returns them. -/
def uniqueCons : List String → List String
  | [] => []
  | x :: xs => x :: uniqueCons (xs.filter (fun y => y ≠ x))
termination_by l => l.length
decreasing_by
  simp only [List.length_cons]
  exact Nat.lt_succ_of_le (List.length_filter_le _ _)

/-- The country selector options: distinct countries in first-seen order. -/
def countryOptions (df : DataFrame) : List String :=
  uniqueCons (df.rows.map Record.country)

/-- The cascading source options: distinct sources among rows whose country
is selected (`filtered_by_country.source.unique()`). -/
def cascadeSources (rows : List Record) (selectedCountries : List String) :
    List String :=
  uniqueCons ((rows.filter
    (fun r => selectedCountries.contains r.country)).map Record.source)

/-- Row filter: conjunction of the two set-membership tests
(`df.country.isin(C) & df.source.isin(S)`). -/
def filterTable (rows : List Record)
    (selectedCountries selectedSources : List String) : List Record :=
  rows.filter (fun r =>
    selectedCountries.contains r.country &&
    selectedSources.contains r.source)

/-! ### Aggregator -/

/-- Column sum with NaN skipped (pandas `Series.sum`). -/
def colSum (cells : List (Option ℚ)) : ℚ :=
  (cells.filterMap id).sum

/-- Column mean with NaN excluded (pandas `Series.mean`); `none` when no
valid value remains. -/
def colMean (cells : List (Option ℚ)) : Option ℚ :=
  let vs := cells.filterMap id
  if vs.isEmpty then none else some (vs.sum / vs.length)

/-- The three summary metrics. -/
structure SummaryMetrics where
  totalProduction : ℚ
  avgEfficiency : Option ℚ
  totalServiceHours : ℚ
deriving DecidableEq, Repr

/-- `summarize`: total production scaled to million m³, mean efficiency,
total service hours, over the filtered rows. -/
def summarize (rows : List Record) : SummaryMetrics :=
  { totalProduction := colSum (rows.map Record.production) / 1000000,
    avgEfficiency := colMean (rows.map Record.efficiency),
    totalServiceHours := colSum (rows.map Record.serviceHours) }

/-! ### Presentation flow -/

/-- The chart specification handed to the charting collaborator: the
filtered data and the metric chosen for the y-axis. -/
structure ChartSpec where
  data : List Record
  metric : String
deriving DecidableEq, Repr

/-- The metric selector options. -/
def metricOptions : List String :=
  ["Production (m³)", "Efficiency (m³/hour)", "Service Hours"]

/-- The warning text shown when the filtered table is empty. -/
def warnMsg : String :=
  "No data found for the selected filters. Please adjust your selections."

/-- The main panel: metrics and chart when the filtered table is non-empty,
otherwise the warning; the metrics and chart are only built in the
non-empty branch. -/
inductive MainView
  | metrics (s : SummaryMetrics) (chart : ChartSpec)
  | noData (msg : String)
deriving DecidableEq, Repr

/-- Render the main panel from the filtered table and the chosen metric
(the emptiness guard around the metric/chart block). -/
def renderMain (filtered : List Record) (selectedMetric : String) : MainView :=
  if filtered.isEmpty then .noData warnMsg
  else .metrics (summarize filtered) { data := filtered, metric := selectedMetric }

/-- The raw-data preview: first 100 rows of the filtered table
(`filtered_df.head(100)`). -/
def rawPreview (filtered : List Record) : List Record :=
  filtered.take 100

/-- The user-visible error text for each load failure kind. -/
def errorMessage : LoadError → String
  | .fileNotFound =>
    "Error: The file data/production_basic_aggregated.csv was not found. Please ensure your data is saved correctly."
  | .parseError m =>
    "An error occurred while loading or parsing the data: " ++ m

/-- Outcome of one render cycle: either the error path halted everything
(`st.error` followed by `st.stop`), or the page rendered a main view and,
when the raw-data box is ticked, the preview. -/
inductive AppOutcome
  | halted (errMsg : String)
  | rendered (main : MainView) (preview : Option (List Record))
deriving DecidableEq, Repr

/-- One full render cycle.  The chooser functions model the user widgets:
each receives the offered options and returns the selection (the default
selection is the whole option list).  On a load failure the cycle halts with
the error message and nothing further runs. -/
def runApp (file : FileState)
    (chooseCountries chooseSources : List String → List String)
    (chooseMetric : List String → String) (showRaw : Bool) : AppOutcome :=
  match load file with
  | .error e => .halted (errorMessage e)
  | .ok df =>
    let selC := chooseCountries (countryOptions df)
    let selS := chooseSources (cascadeSources df.rows selC)
    let filtered := filterTable df.rows selC selS
    .rendered (renderMain filtered (chooseMetric metricOptions))
      (if showRaw then some (rawPreview filtered) else none)

/-! ### Example data -/

/-- Two loaded records matching the aggregation example of the spec. -/
def exampleRows : List Record :=
  [ { date := { year := 2023, month := 1, day := 1 }, country := "A", source := "X",
      production := some 1000000, serviceHours := some 5, efficiency := some 10 },
    { date := { year := 2023, month := 1, day := 2 }, country := "A", source := "X",
      production := some 2000000, serviceHours := some 7, efficiency := some 20 } ]

/-- Records (A,X), (A,Y), (B,X) for the filter example of the spec. -/
def rAX : Record :=
  { date := { year := 2023, month := 1, day := 1 }, country := "A", source := "X",
    production := some 1, serviceHours := some 1, efficiency := some 1 }

def rAY : Record :=
  { date := { year := 2023, month := 1, day := 2 }, country := "A", source := "Y",
    production := some 2, serviceHours := some 2, efficiency := some 2 }

def rBX : Record :=
  { date := { year := 2023, month := 1, day := 3 }, country := "B", source := "X",
    production := some 3, serviceHours := some 3, efficiency := some 3 }

/-- The expected CSV header. -/
def exampleHeader : List String :=
  ["date", "country", "source", "production_m3", "service_hours",
   "production_m3_per_hour"]

/-- Two raw rows: one well-formed, one with the malformed date of the spec
example (month 13, day 40). -/
def exampleRawRows : List RawRow :=
  [ { date := "2023-01-01", country := "A", source := "X",
      production_m3 := some 1000000, service_hours := some 5,
      production_m3_per_hour := some 10 },
    { date := "2023-13-40", country := "CountryA", source := "SourceX",
      production_m3 := some 100, service_hours := some 10,
      production_m3_per_hour := some 10 } ]

/-- A concrete readable file. -/
def exampleFile : FileState := .readable exampleHeader exampleRawRows

/-- What loading `exampleFile` produces: the malformed-date row is dropped
and the metric columns carry display names. -/
def exampleDF : DataFrame :=
  { columns := ["country", "source", "Production (m³)", "Service Hours",
                "Efficiency (m³/hour)"],
    rows := [ { date := { year := 2023, month := 1, day := 1 }, country := "A",
                source := "X", production := some 1000000,
                serviceHours := some 5, efficiency := some 10 } ] }

/-- The strict digit-count criterion stated by the spec for the date format
("4-digit year, 2-digit month, 2-digit day, dash-separated").  This
definition follows the claim's words, to be compared with `parseDate`,
which embeds the program's strptime-style matching where the leading zero
of month and day is optional. -/
def strictFormatYMD (s : String) : Bool :=
  match splitDashes s.data with
  | [ys, ms, ds] =>
    ys.length == 4 && ms.length == 2 && ds.length == 2 &&
    ys.all Char.isDigit && ms.all Char.isDigit && ds.all Char.isDigit
  | _ => false

/-- A raw row whose date "2023-1-01" fails the spec's strict 4-2-2 digit
criterion but parses under the program's strptime-style matching. -/
def lenientRow : RawRow :=
  { date := "2023-1-01", country := "B", source := "Y",
    production_m3 := some 2, service_hours := some 3,
    production_m3_per_hour := some 4 }

/-! ### Helper lemmas -/

theorem mem_uniqueCons (l : List String) (a : String) :
    a ∈ uniqueCons l ↔ a ∈ l := by
  induction l using uniqueCons.induct with
  | case1 => simp [uniqueCons]
  | case2 x xs ih =>
    rw [uniqueCons]
    simp only [List.mem_cons, ih, List.mem_filter, decide_eq_true_eq]
    by_cases h : a = x
    · subst h; simp
    · simp [h]

theorem loadRows_eq_filter_map (rows : List RawRow) :
    loadRows rows = (rows.filter (fun r => (parseDate r.date).isSome)).map
      (fun r => convertRow r
        ((parseDate r.date).getD { year := 0, month := 0, day := 0 })) := by
  induction rows with
  | nil => rfl
  | cons r rs ih =>
    simp only [loadRows, List.filterMap_cons, List.filter_cons] at *
    cases h : parseDate r.date with
    | none => simp [parseRow, h, ih]
    | some d => simp [parseRow, h, ih]

theorem mem_cascadeSources (rows : List Record) (C : List String) (s : String) :
    s ∈ cascadeSources rows C ↔ ∃ r ∈ rows, r.country ∈ C ∧ r.source = s := by
  simp [cascadeSources, mem_uniqueCons, List.mem_filter, List.elem_eq_mem,
    and_assoc]

theorem filterTable_eq_filter (rows : List Record) (C S : List String) :
    filterTable rows C S =
      rows.filter (fun r => decide (r.country ∈ C ∧ r.source ∈ S)) := by
  unfold filterTable
  apply List.filter_congr
  intro r _
  by_cases h1 : r.country ∈ C <;> by_cases h2 : r.source ∈ S <;>
    simp [h1, h2, List.elem_eq_mem]

theorem filter_default_eq_self (rows : List Record) :
    filterTable rows (uniqueCons (rows.map Record.country))
      (cascadeSources rows (uniqueCons (rows.map Record.country))) = rows := by
  rw [filterTable_eq_filter]
  apply List.filter_eq_self.mpr
  intro r hr
  simp only [decide_eq_true_eq]
  refine ⟨(mem_uniqueCons _ _).mpr (List.mem_map.mpr ⟨r, hr, rfl⟩), ?_⟩
  exact (mem_cascadeSources _ _ _).mpr
    ⟨r, hr, (mem_uniqueCons _ _).mpr (List.mem_map.mpr ⟨r, hr, rfl⟩), rfl⟩

theorem filterTable_nil_left (rows : List Record) (S : List String) :
    filterTable rows [] S = [] := by
  rw [filterTable_eq_filter]; simp

theorem filterTable_nil_right (rows : List Record) (C : List String) :
    filterTable rows C [] = [] := by
  rw [filterTable_eq_filter]; simp

theorem load_exampleFile : load exampleFile = .ok exampleDF := by
  rw [show load exampleFile =
    .ok { columns := (exampleHeader.erase "date").map renameColumn,
          rows := loadRows exampleRawRows } from by
      simp [load, exampleFile, exampleHeader]]
  congr 1

/-! ### Claims -/

/-- C1: `filter(table, C, S)` returns exactly the rows whose country is in C
and whose source is in S, as an order-preserving sublist of the table; empty
C or S yields an empty result (absence means nothing matches).  The spec
example: rows (A,X),(A,Y),(B,X) with C={A}, S={X} give exactly [(A,X)]. -/
theorem claim1_filter_spec (rows : List Record) (C S : List String) :
    filterTable rows C S =
      rows.filter (fun r => decide (r.country ∈ C ∧ r.source ∈ S)) ∧
    List.Sublist (filterTable rows C S) rows ∧
    (∀ r, r ∈ filterTable rows C S ↔
      r ∈ rows ∧ r.country ∈ C ∧ r.source ∈ S) ∧
    (C = [] → filterTable rows C S = []) ∧
    (S = [] → filterTable rows C S = []) ∧
    filterTable [rAX, rAY, rBX] ["A"] ["X"] = [rAX] := by
  refine ⟨filterTable_eq_filter rows C S, ?_, ?_, ?_, ?_, by decide⟩
  · rw [filterTable_eq_filter]; exact List.filter_sublist rows
  · intro r
    rw [filterTable_eq_filter]
    simp [List.mem_filter, and_assoc]
  · rintro rfl
    rw [filterTable_eq_filter]
    simp
  · rintro rfl
    rw [filterTable_eq_filter]
    simp

/-- C1 witness: the theorem applied at concrete inputs, discharging the
empty-selection hypotheses. -/
theorem claim1_filter_spec_witness :
    filterTable exampleRows ([] : List String) ["X"] = [] ∧
    filterTable exampleRows ["A"] ([] : List String) = [] :=
  ⟨(claim1_filter_spec exampleRows [] ["X"]).2.2.2.1 rfl,
   (claim1_filter_spec exampleRows ["A"] []).2.2.2.2.1 rfl⟩

/-- C5: the cascaded source options are exactly the sources of records whose
country is selected; an empty country selection offers no sources. -/
theorem claim5_cascade_spec (rows : List Record) (C : List String) :
    (∀ s, s ∈ cascadeSources rows C ↔
      ∃ r ∈ rows, r.country ∈ C ∧ r.source = s) ∧
    (C = [] → cascadeSources rows C = []) := by
  refine ⟨fun s => mem_cascadeSources rows C s, ?_⟩
  rintro rfl
  simp [cascadeSources, uniqueCons]

/-- C5 witness: the theorem applied at a concrete non-empty table with the
empty country selection. -/
theorem claim5_cascade_spec_witness :
    cascadeSources exampleRows ([] : List String) = [] :=
  (claim5_cascade_spec exampleRows []).2 rfl

/-- C9: the raw-data preview holds exactly min(100, n) rows, namely the
first min(100, n) rows of the filtered table in order (it extends to the
full table by some suffix). -/
theorem claim9_preview_spec (filtered : List Record) :
    (rawPreview filtered).length = min 100 filtered.length ∧
    ∃ t, rawPreview filtered ++ t = filtered :=
  ⟨List.length_take 100 filtered,
   ⟨filtered.drop 100, List.take_append_drop 100 filtered⟩⟩

/-- C10: filtering with the default selections (all distinct countries, and
all sources cascaded from them) returns the table unchanged, so a render
cycle with identity choosers (the widget defaults) computes its metrics and
chart over the entire dataset. -/
theorem claim10_default_selection (rows : List Record) :
    filterTable rows (uniqueCons (rows.map Record.country))
      (cascadeSources rows (uniqueCons (rows.map Record.country))) = rows ∧
    (∀ (f : FileState) (df : DataFrame) (cm : List String → String)
        (b : Bool), load f = .ok df →
      runApp f (fun o => o) (fun o => o) cm b =
        .rendered (renderMain df.rows (cm metricOptions))
          (if b then some (rawPreview df.rows) else none)) := by
  refine ⟨filter_default_eq_self rows, ?_⟩
  intro f df cm b hl
  simp only [runApp, hl, countryOptions]
  rw [filter_default_eq_self df.rows]

/-- C10 witness: the theorem applied at the concrete example file. -/
theorem claim10_default_selection_witness :
    runApp exampleFile (fun o => o) (fun o => o)
        (fun _ => "Production (m³)") true =
      .rendered (renderMain exampleDF.rows "Production (m³)")
        (some (rawPreview exampleDF.rows)) :=
  (claim10_default_selection []).2 exampleFile exampleDF
    (fun _ => "Production (m³)") true load_exampleFile

/-- C2 counterexample: the claim fails on the code.  The date "2023-1-01"
fails the claim's strict 4-2-2 digit criterion, yet the program's
strptime-style matching parses it (the leading zero of month and day is
optional), so the loaded table retains the row — it is not absent as the
claim requires. -/
theorem claim2_strict_format_counterexample :
    strictFormatYMD "2023-1-01" = false ∧
    parseDate "2023-1-01" = some { year := 2023, month := 1, day := 1 } ∧
    loadRows [lenientRow] =
      [{ date := { year := 2023, month := 1, day := 1 }, country := "B",
         source := "Y", production := some 2, serviceHours := some 3,
         efficiency := some 4 }] :=
  ⟨by decide, by decide, by decide⟩

/-- C2 (amended): a row whose date fails the strptime-style %Y-%m-%d parse
(4-digit year, dash-separated, month and day of one or two digits with the
leading zero optional, and calendar validity) is absent from the loaded
table, and the drop raises no error: on a readable file holding the date
column, load always succeeds and its rows are exactly the images of the
raw rows whose date parses; load fails only for a missing file, an
unreadable file, or a missing date column — never for a malformed date
value (e.g. "2023-13-40" coerces to the null marker, while "2023-1-01" is
parsed and retained). -/
theorem claim2_lenient_dates_dropped :
    (∀ (header : List String) (rows : List RawRow), "date" ∈ header →
      ∃ df, load (.readable header rows) = .ok df ∧
        ∀ rec, rec ∈ df.rows ↔
          ∃ r ∈ rows, (parseDate r.date).map (convertRow r) = some rec) ∧
    parseDate "2023-13-40" = none ∧
    parseDate "2023-1-01" = some { year := 2023, month := 1, day := 1 } ∧
    (∀ (f : FileState) (e : LoadError), load f = .error e →
      f = .missing ∨ (∃ m, f = .unreadable m) ∨
      ∃ header rows, f = .readable header rows ∧ "date" ∉ header) := by
  refine ⟨?_, by decide, by decide, ?_⟩
  · intro header rows hd
    refine ⟨{ columns := (header.erase "date").map renameColumn,
              rows := loadRows rows }, by simp [load, hd], ?_⟩
    intro rec
    simp [loadRows, List.mem_filterMap, parseRow]
  · intro f e he
    cases f with
    | missing => exact Or.inl rfl
    | unreadable m => exact Or.inr (Or.inl ⟨m, rfl⟩)
    | readable header rows =>
      refine Or.inr (Or.inr ⟨header, rows, rfl, ?_⟩)
      intro hd
      simp [load, hd] at he

/-- C2 witness: the amended theorem applied at the concrete example file,
whose second raw row has the malformed date "2023-13-40". -/
theorem claim2_lenient_dates_dropped_witness :
    "date" ∈ exampleHeader ∧
    ∃ df, load (.readable exampleHeader exampleRawRows) = .ok df ∧
      ∀ rec, rec ∈ df.rows ↔
        ∃ r ∈ exampleRawRows, (parseDate r.date).map (convertRow r) = some rec :=
  ⟨by decide,
   claim2_lenient_dates_dropped.1 exampleHeader exampleRawRows (by decide)⟩

/-- C3: on a non-empty filtered table, total production is the NaN-skipping
sum of the production column divided by 1,000,000, average efficiency is the
arithmetic mean of the non-NaN efficiency values, and total service hours is
the NaN-skipping sum of the service-hours column; the spec example rows give
(3, 15, 12). -/
theorem claim3_summarize_spec :
    (∀ rows : List Record, rows ≠ [] →
      (summarize rows).totalProduction =
        (rows.filterMap Record.production).sum / 1000000 ∧
      (rows.filterMap Record.efficiency ≠ [] →
        (summarize rows).avgEfficiency =
          some ((rows.filterMap Record.efficiency).sum /
            (rows.filterMap Record.efficiency).length)) ∧
      (summarize rows).totalServiceHours =
        (rows.filterMap Record.serviceHours).sum) ∧
    summarize exampleRows =
      { totalProduction := 3, avgEfficiency := some 15,
        totalServiceHours := 12 } := by
  constructor
  · intro rows _
    refine ⟨?_, ?_, ?_⟩
    · simp [summarize, colSum, List.filterMap_map]
    · intro hne
      simp [summarize, colMean, List.filterMap_map]
      rw [Ne, List.filterMap_eq_nil_iff] at hne
      push_neg at hne
      exact hne
    · simp [summarize, colSum, List.filterMap_map]
  · simp [summarize, colSum, colMean, exampleRows, List.filterMap]
    norm_num

/-- C3 witness: the theorem applied at the spec example rows, discharging
both non-emptiness hypotheses. -/
theorem claim3_summarize_spec_witness :
    exampleRows ≠ [] ∧ exampleRows.filterMap Record.efficiency ≠ [] ∧
    (summarize exampleRows).avgEfficiency =
      some ((exampleRows.filterMap Record.efficiency).sum /
        (exampleRows.filterMap Record.efficiency).length) :=
  ⟨by decide, by decide,
   (claim3_summarize_spec.1 exampleRows (by decide)).2.1 (by decide)⟩

/-- C4: an empty filtered table always renders the warning, a metrics view
is only ever produced from a non-empty filtered table (and then its metrics
are `summarize` of that table), and a full render cycle whose filtered
table is empty renders the warning — so neither summary metrics nor the
chart are computed for that cycle. -/
theorem claim4_empty_guard :
    (∀ (filtered : List Record) (m : String), filtered = [] →
      renderMain filtered m = .noData warnMsg) ∧
    (∀ (filtered : List Record) (m : String) (s : SummaryMetrics)
        (ch : ChartSpec), renderMain filtered m = .metrics s ch →
      filtered ≠ [] ∧ s = summarize filtered) ∧
    (∀ (f : FileState) (df : DataFrame)
        (cc cs : List String → List String) (cm : List String → String)
        (b : Bool), load f = .ok df →
      filterTable df.rows (cc (countryOptions df))
        (cs (cascadeSources df.rows (cc (countryOptions df)))) = [] →
      runApp f cc cs cm b =
        .rendered (.noData warnMsg) (if b then some [] else none)) := by
  refine ⟨?_, ?_, ?_⟩
  · rintro filtered m rfl
    rfl
  · intro filtered m s ch h
    rw [renderMain] at h
    by_cases he : filtered.isEmpty
    · rw [if_pos he] at h
      exact absurd h (by simp)
    · rw [if_neg he] at h
      refine ⟨by simpa using he, ?_⟩
      simp only [MainView.metrics.injEq] at h
      exact h.1.symm
  · intro f df cc cs cm b hl hfe
    simp only [runApp, hl]
    rw [hfe]
    simp [renderMain, rawPreview]

/-- C4 witness: the theorem applied at the example file with an empty
country selection, so the filtered table is empty and the cycle renders
the warning. -/
theorem claim4_empty_guard_witness :
    runApp exampleFile (fun _ => []) (fun o => o)
        (fun _ => "Service Hours") false =
      .rendered (.noData warnMsg) none :=
  claim4_empty_guard.2.2 exampleFile exampleDF (fun _ => []) (fun o => o)
    (fun _ => "Service Hours") false load_exampleFile
    (filterTable_nil_left _ _)

/-- C6: the loader is memoized and idempotent: on a valid file, the first
access computes the table and stores it, and any later access returns the
row-for-row identical cached table without running the loader again. -/
theorem claim6_load_memoized (f : FileState) (df : DataFrame)
    (h : load f = .ok df) :
    cachedLoad f none = (.ok df, some df, true) ∧
    cachedLoad f (some df) = (.ok df, some df, false) := by
  constructor
  · simp [cachedLoad, h]
  · rfl

/-- C6 witness: the theorem applied at the concrete example file. -/
theorem claim6_load_memoized_witness :
    cachedLoad exampleFile none = (.ok exampleDF, some exampleDF, true) ∧
    cachedLoad exampleFile (some exampleDF) =
      (.ok exampleDF, some exampleDF, false) :=
  claim6_load_memoized exampleFile exampleDF load_exampleFile

/-- C7: a missing file signals the FileNotFound kind, an unreadable file or
a missing date column signals the ParseError kind carrying the underlying
message, and on any load error the render cycle halts with the surfaced
error message — nothing further runs. -/
theorem claim7_error_taxonomy :
    load .missing = .error .fileNotFound ∧
    (∀ m, load (.unreadable m) = .error (.parseError m)) ∧
    (∀ (header : List String) (rows : List RawRow), "date" ∉ header →
      load (.readable header rows) =
        .error (.parseError "Missing column provided to parse_dates: date")) ∧
    (∀ (f : FileState) (e : LoadError)
        (cc cs : List String → List String) (cm : List String → String)
        (b : Bool), load f = .error e →
      runApp f cc cs cm b = .halted (errorMessage e)) := by
  refine ⟨rfl, fun m => rfl, ?_, ?_⟩
  · intro header rows hd
    simp [load, hd]
  · intro f e cc cs cm b he
    simp [runApp, he]

/-- C7 witness: the theorem applied to the missing file, halting the cycle
with the file-not-found message. -/
theorem claim7_error_taxonomy_witness :
    runApp .missing (fun o => o) (fun o => o) (fun _ => "Service Hours")
        false = .halted (errorMessage .fileNotFound) :=
  claim7_error_taxonomy.2.2.2 .missing .fileNotFound (fun o => o)
    (fun o => o) (fun _ => "Service Hours") false rfl

/-- C8: loading a readable file keeps the surviving rows in original file
order (the output is the in-order image of the raw rows whose date parses),
renames the three metric columns to their display labels, and leaves the
country and source column names unchanged. -/
theorem claim8_load_rename_order (header : List String) (rows : List RawRow)
    (hd : "date" ∈ header) :
    load (.readable header rows) = .ok
      { columns := (header.erase "date").map renameColumn,
        rows := (rows.filter (fun r => (parseDate r.date).isSome)).map
          (fun r => convertRow r
            ((parseDate r.date).getD { year := 0, month := 0, day := 0 })) } ∧
    renameColumn "production_m3" = "Production (m³)" ∧
    renameColumn "service_hours" = "Service Hours" ∧
    renameColumn "production_m3_per_hour" = "Efficiency (m³/hour)" ∧
    renameColumn "country" = "country" ∧
    renameColumn "source" = "source" := by
  refine ⟨?_, by decide, by decide, by decide, by decide, by decide⟩
  simp [load, hd, loadRows_eq_filter_map]

/-- C8 witness: the theorem applied at the concrete example file. -/
theorem claim8_load_rename_order_witness :
    "date" ∈ exampleHeader ∧
    load (.readable exampleHeader exampleRawRows) = .ok
      { columns := (exampleHeader.erase "date").map renameColumn,
        rows := (exampleRawRows.filter
            (fun r => (parseDate r.date).isSome)).map
          (fun r => convertRow r
            ((parseDate r.date).getD { year := 0, month := 0, day := 0 })) } :=
  ⟨by decide,
   (claim8_load_rename_order exampleHeader exampleRawRows (by decide)).1⟩

end WaterDash
